import Mathlib

/-!
Shallow embedding of `include/codepy/bpl.hpp`.

The header defines, in namespace `codepy`:
* the macro `CODEPY_PYTHON_ERROR(TYPE, REASON)`, which calls
  `PyErr_SetString(PyExc_##TYPE, REASON)` and then throws
  `boost::python::error_already_set()`;
* the macro `CODEPY_PYTHON_FOREACH(TYPE, NAME, ITERABLE)`, which loops `NAME`
  over the range from `boost::python::stl_input_iterator<TYPE>(ITERABLE)` to
  the end sentinel `boost::python::stl_input_iterator<TYPE>()`;
* the class template `no_compare_indexing_suite<T>`, deriving from
  `boost::python::vector_indexing_suite<T, false, no_compare_indexing_suite<T>>`
  and overriding only the static member
  `contains(T &container, T::value_type const &key)`, whose whole body is
  `CODEPY_PYTHON_ERROR(NotImplementedError, "containment checking not supported on this container")`.

The embedding models the Python interpreter error state as an explicit value
threaded through each operation, and the `throw` of `error_already_set` as an
`Except.error` result.  A container of element type `T` is a `List T`; a
by-reference container argument is returned alongside the result so that
mutation (or its absence) is observable.
-/

/-- The built-in Python exception categories used by this header: the category
named by the override in `no_compare_indexing_suite::contains`, and the
out-of-range category raised by the inherited indexing operations. -/
inductive PyExcType where
  | NotImplementedError
  | IndexError
  deriving DecidableEq, Repr

/-- The Python interpreter pending-error state mutated by `PyErr_SetString`:
either no pending error, or a `(category, message)` pair. -/
structure PyState where
  pendingError : Option (PyExcType × String)
  deriving DecidableEq, Repr

/-- `PyErr_SetString(PyExc_TYPE, REASON)`: overwrites the interpreter
pending-error state with the given category and the message string exactly as
given, with no formatting, parameterization, or truncation. -/
def PyErr_SetString (s : PyState) (ty : PyExcType) (reason : String) : PyState :=
  { s with pendingError := some (ty, reason) }

/-- The control-transfer exception `boost::python::error_already_set` thrown by
the error macro; the binding layer recognizes it as "a Python error is already
pending, propagate it to the scripting caller". -/
inductive BplUnwind where
  | error_already_set
  deriving DecidableEq, Repr

/-- The macro `CODEPY_PYTHON_ERROR(TYPE, REASON)`:
`{ PyErr_SetString(PyExc_##TYPE, REASON); throw boost::python::error_already_set(); }`.
It first sets the pending error to `(TYPE, REASON)` and then throws, so the
surrounding native frame (whose normal return type is `α`) never produces an
`Except.ok` value. -/
def CODEPY_PYTHON_ERROR (α : Type) (ty : PyExcType) (reason : String) (s : PyState) :
    Except BplUnwind α × PyState :=
  (Except.error BplUnwind.error_already_set, PyErr_SetString s ty reason)

namespace no_compare_indexing_suite

/-- `no_compare_indexing_suite<T>::contains(T &container, T::value_type const &key)`:
its entire body is the macro invocation
`CODEPY_PYTHON_ERROR(NotImplementedError, "containment checking not supported on this container")`.
The declared return type is `bool`; the body never returns.  The by-reference
`container` is returned unchanged as the final component.  Note that the
element type `T` carries no equality instance here at all: the body reads
neither `container` nor `key`, so no equality scan of the sequence occurs. -/
def contains {T : Type} (container : List T) (key : T) (s : PyState) :
    Except BplUnwind Bool × PyState × List T :=
  let r := CODEPY_PYTHON_ERROR Bool PyExcType.NotImplementedError
      "containment checking not supported on this container" s
  (r.1, r.2, container)

end no_compare_indexing_suite

namespace vector_indexing_suite

/-- Modelled from the spec: `boost::python::vector_indexing_suite` is external
to this repository (a collaborator the spec calls the generic sequence-binding
helper), so its indexed get is modelled from the spec words: "Indexed get:
returns element at a given ordinal position; fails with an out-of-range error
category if the index is outside [0, length)." -/
def get {T : Type} (container : List T) (i : Int) (s : PyState) :
    Except BplUnwind T × PyState :=
  if h : 0 ≤ i ∧ i < (container.length : Int) then
    (Except.ok (container.get ⟨i.toNat, by omega⟩), s)
  else
    CODEPY_PYTHON_ERROR T PyExcType.IndexError "Index out of range" s

/-- Modelled from the spec: the generic sequence-binding helper is external to
this repository, so its indexed set is modelled from the spec words: "Indexed
set: replaces element at a given ordinal position; same range-error
condition." -/
def set {T : Type} (container : List T) (i : Int) (v : T) (s : PyState) :
    Except BplUnwind Unit × PyState × List T :=
  if 0 ≤ i ∧ i < (container.length : Int) then
    (Except.ok (), s, container.set i.toNat v)
  else
    let r := CODEPY_PYTHON_ERROR Unit PyExcType.IndexError "Index out of range" s
    (r.1, r.2, container)

/-- Modelled from the spec: the generic sequence-binding helper is external to
this repository; its iteration "produces a lazy, finite, restartable sequence
of T (restartable because it is re-derived from the underlying sequence each
time iteration is requested)", so each request yields the element sequence of
the underlying container at that moment. -/
def iterate {T : Type} (container : List T) : List T :=
  container

end vector_indexing_suite

/-- Performs `n` successive containment-test attempts on a container, each one
failing and unwinding, threading the (by-reference) container and the
interpreter state through all of them. -/
def containsAttempts {T : Type} (n : Nat) (container : List T) (key : T) (s : PyState) :
    List T × PyState :=
  match n with
  | 0 => (container, s)
  | Nat.succ m =>
    let r := no_compare_indexing_suite.contains container key s
    containsAttempts m r.2.2 key r.2.1

/-- The macro `CODEPY_PYTHON_FOREACH(TYPE, NAME, ITERABLE)`: a `BOOST_FOREACH`
loop over the pair of `boost::python::stl_input_iterator<TYPE>` values from
`ITERABLE` to the end sentinel, which executes the loop body once per element
of the iterable, in order, binding `NAME` to that element.  The single-pass
traversal accumulating a loop state is a left fold over the element
sequence. -/
def CODEPY_PYTHON_FOREACH {T σ : Type} (iterable : List T) (body : T → σ → σ) (init : σ) : σ :=
  iterable.foldl (fun acc x => body x acc) init

/-- The sequence of values the foreach macro binds its loop variable to, in
the order they are bound: obtained by running the loop with a body that
records its bound element. -/
def foreachBoundValues {T : Type} (iterable : List T) : List T :=
  CODEPY_PYTHON_FOREACH iterable (fun x acc => acc ++ [x]) []

/-- C1: for every instantiation of `no_compare_indexing_suite<T>`, every key
value and every container state, `contains` raises the `NotImplementedError`
category (the pending error it leaves is exactly that category with the fixed
message), it unwinds via `error_already_set` rather than returning a boolean,
and — the element type carrying no equality operation at all in this
statement — it performs no equality scan of the sequence. -/
theorem contains_always_raises_not_implemented {T : Type} (container : List T)
    (key : T) (s : PyState) :
    (no_compare_indexing_suite.contains container key s).1 =
      Except.error BplUnwind.error_already_set ∧
    (no_compare_indexing_suite.contains container key s).2.1.pendingError =
      some (PyExcType.NotImplementedError,
        "containment checking not supported on this container") ∧
    ∀ b : Bool, (no_compare_indexing_suite.contains container key s).1 ≠ Except.ok b := by
  refine ⟨rfl, rfl, ?_⟩
  intro b h
  simp [no_compare_indexing_suite.contains, CODEPY_PYTHON_ERROR] at h

/-- C2: invoking the error macro with category `NotImplementedError` and
message "containment checking not supported on this container" leaves a
pending error carrying exactly that category and exactly that message string,
with no formatting, parameterization, or truncation applied. -/
theorem error_macro_exact_category_and_message (s : PyState) :
    (CODEPY_PYTHON_ERROR Bool PyExcType.NotImplementedError
        "containment checking not supported on this container" s).2.pendingError =
      some (PyExcType.NotImplementedError,
        "containment checking not supported on this container") :=
  rfl

/-- C3: for every result type, category and message, the error macro sets the
interpreter pending-error state to exactly `PyErr_SetString` of that
`(category, message)` pair and raises the `error_already_set` unwind signal;
it never returns normally (no `Except.ok` outcome is possible). -/
theorem error_macro_sets_state_then_unwinds (α : Type) (ty : PyExcType)
    (reason : String) (s : PyState) :
    (CODEPY_PYTHON_ERROR α ty reason s).1 = Except.error BplUnwind.error_already_set ∧
    (CODEPY_PYTHON_ERROR α ty reason s).2 = PyErr_SetString s ty reason ∧
    ∀ a : α, (CODEPY_PYTHON_ERROR α ty reason s).1 ≠ Except.ok a := by
  refine ⟨rfl, rfl, ?_⟩
  intro a h
  simp [CODEPY_PYTHON_ERROR] at h

/-- C4: for every index `i` outside `[0, length)`, both indexed get and
indexed set unwind with a pending error of the out-of-range category
`IndexError`, which is not the `NotImplementedError` category: only the
containment test is overridden away from the generic helper behavior. -/
theorem get_set_out_of_range_raise_index_error {T : Type} (container : List T)
    (i : Int) (v : T) (s : PyState)
    (h : ¬ (0 ≤ i ∧ i < (container.length : Int))) :
    (vector_indexing_suite.get container i s).1 =
      Except.error BplUnwind.error_already_set ∧
    (vector_indexing_suite.get container i s).2.pendingError =
      some (PyExcType.IndexError, "Index out of range") ∧
    (vector_indexing_suite.set container i v s).1 =
      Except.error BplUnwind.error_already_set ∧
    (vector_indexing_suite.set container i v s).2.1.pendingError =
      some (PyExcType.IndexError, "Index out of range") ∧
    PyExcType.IndexError ≠ PyExcType.NotImplementedError := by
  refine ⟨?_, ?_, ?_, ?_, by decide⟩ <;>
    simp [vector_indexing_suite.get, vector_indexing_suite.set, h,
      CODEPY_PYTHON_ERROR, PyErr_SetString]

theorem get_set_out_of_range_raise_index_error_witness :
    ¬ ((0:Int) ≤ 5 ∧ (5:Int) < (([1, 2, 3] : List Nat).length : Int)) ∧
    ((vector_indexing_suite.get ([1, 2, 3] : List Nat) 5 ⟨none⟩).1 =
        Except.error BplUnwind.error_already_set ∧
      (vector_indexing_suite.get ([1, 2, 3] : List Nat) 5 ⟨none⟩).2.pendingError =
        some (PyExcType.IndexError, "Index out of range") ∧
      (vector_indexing_suite.set ([1, 2, 3] : List Nat) 5 7 ⟨none⟩).1 =
        Except.error BplUnwind.error_already_set ∧
      (vector_indexing_suite.set ([1, 2, 3] : List Nat) 5 7 ⟨none⟩).2.1.pendingError =
        some (PyExcType.IndexError, "Index out of range") ∧
      PyExcType.IndexError ≠ PyExcType.NotImplementedError) :=
  ⟨by decide, get_set_out_of_range_raise_index_error [1, 2, 3] 5 7 ⟨none⟩ (by decide)⟩

/-- C5: for every adapted sequence, every valid index `i` in `[0, length)` and
every element value `v`, indexed set succeeds and a subsequent indexed get at
`i` (on the updated container, in the updated interpreter state) returns `v`:
the inherited get/set round-trip as ordinary sequence access. -/
theorem set_get_roundtrip {T : Type} (container : List T) (i : Int) (v : T)
    (s : PyState) (h : 0 ≤ i ∧ i < (container.length : Int)) :
    (vector_indexing_suite.set container i v s).1 = Except.ok () ∧
    (vector_indexing_suite.get (vector_indexing_suite.set container i v s).2.2 i
        (vector_indexing_suite.set container i v s).2.1).1 = Except.ok v := by
  have hset : vector_indexing_suite.set container i v s =
      (Except.ok (), s, container.set i.toNat v) := by
    simp [vector_indexing_suite.set, h]
  refine ⟨by rw [hset], ?_⟩
  rw [hset]
  simp only [vector_indexing_suite.get, List.length_set]
  rw [dif_pos h]
  simp [List.get_eq_getElem, List.getElem_set_self]

theorem set_get_roundtrip_witness :
    ((0:Int) ≤ 1 ∧ (1:Int) < (([10, 20, 30] : List Nat).length : Int)) ∧
    ((vector_indexing_suite.set ([10, 20, 30] : List Nat) 1 99 ⟨none⟩).1 =
        Except.ok () ∧
      (vector_indexing_suite.get
          (vector_indexing_suite.set ([10, 20, 30] : List Nat) 1 99 ⟨none⟩).2.2 1
          (vector_indexing_suite.set ([10, 20, 30] : List Nat) 1 99 ⟨none⟩).2.1).1 =
        Except.ok 99) :=
  ⟨by decide, set_get_roundtrip [10, 20, 30] 1 99 ⟨none⟩ (by decide)⟩

/-- C6: iterating an adapted sequence twice yields the same element sequence
both times, and interposing any number `n` of failed containment-test attempts
(which thread the by-reference container and the interpreter state) does not
change the sequence that iteration yields. -/
theorem iterate_restartable_and_unaffected_by_contains {T : Type}
    (container : List T) (key : T) (s : PyState) (n : Nat) :
    vector_indexing_suite.iterate container = vector_indexing_suite.iterate container ∧
    vector_indexing_suite.iterate (containsAttempts n container key s).1 =
      vector_indexing_suite.iterate container := by
  refine ⟨rfl, ?_⟩
  induction n generalizing s with
  | zero => rfl
  | succ m ih => exact ih (PyErr_SetString s PyExcType.NotImplementedError
      "containment checking not supported on this container")

/-- C7: concrete scenario on the adapted sequence `[1, 2, 3]` of integers:
`contains 2` raises the `NotImplementedError` category and does not return
`true`; `get 1` returns `2`; `get 5` raises the out-of-range category; and
iteration yields exactly `[1, 2, 3]` in order. -/
theorem concrete_scenario_one_two_three :
    (no_compare_indexing_suite.contains ([1, 2, 3] : List Nat) 2 ⟨none⟩).2.1.pendingError =
      some (PyExcType.NotImplementedError,
        "containment checking not supported on this container") ∧
    (no_compare_indexing_suite.contains ([1, 2, 3] : List Nat) 2 ⟨none⟩).1 ≠
      Except.ok true ∧
    (vector_indexing_suite.get ([1, 2, 3] : List Nat) 1 ⟨none⟩).1 = Except.ok 2 ∧
    (vector_indexing_suite.get ([1, 2, 3] : List Nat) 5 ⟨none⟩).2.pendingError =
      some (PyExcType.IndexError, "Index out of range") ∧
    vector_indexing_suite.iterate ([1, 2, 3] : List Nat) = [1, 2, 3] := by
  refine ⟨rfl, ?_, by rfl, by rfl, rfl⟩
  simp [no_compare_indexing_suite.contains, CODEPY_PYTHON_ERROR]

/-- C8: the containment test is deterministic and independent of both of its
inputs, even across distinct instantiations: any two calls, on any containers,
keys and prior interpreter states, produce the same thrown control-transfer
exception and leave identical interpreter states (same pending category
`NotImplementedError` and same message string). -/
theorem contains_outcome_independent_of_inputs {T1 T2 : Type}
    (c1 : List T1) (k1 : T1) (c2 : List T2) (k2 : T2) (s1 s2 : PyState) :
    (no_compare_indexing_suite.contains c1 k1 s1).1 =
      (no_compare_indexing_suite.contains c2 k2 s2).1 ∧
    (no_compare_indexing_suite.contains c1 k1 s1).2.1 =
      (no_compare_indexing_suite.contains c2 k2 s2).2.1 :=
  ⟨rfl, rfl⟩

/-- C9: a failed containment test leaves the container unchanged: the
by-reference container coming out of `contains` is exactly the one that went
in, so its element count and every element (here read back with `getD`) are
exactly what they were before the call. -/
theorem contains_leaves_container_unchanged {T : Type} (c : List T) (k : T)
    (s : PyState) :
    (no_compare_indexing_suite.contains c k s).2.2 = c ∧
    (no_compare_indexing_suite.contains c k s).2.2.length = c.length ∧
    ∀ i : Nat, (no_compare_indexing_suite.contains c k s).2.2.getD i k = c.getD i k :=
  ⟨rfl, rfl, fun _ => rfl⟩

/-- C10: the foreach macro, run on any finite iterable, binds its loop variable
to each element of the iterable in order, visiting each element exactly once:
the recorded sequence of bound values is exactly the iterable itself. -/
theorem foreach_binds_each_element_once_in_order {T : Type} (iterable : List T) :
    foreachBoundValues iterable = iterable := by
  have key : ∀ (l acc : List T),
      CODEPY_PYTHON_FOREACH l (fun x a => a ++ [x]) acc = acc ++ l := by
    intro l
    induction l with
    | nil => intro acc; simp [CODEPY_PYTHON_FOREACH]
    | cons x xs ih =>
      intro acc
      simpa [CODEPY_PYTHON_FOREACH] using ih (acc ++ [x])
  simpa [foreachBoundValues] using key iterable []
